import Mathlib

/-!
Verification of the credential subsystem of `libgssapi`
(`src/libgssapi/src/credential.rs`), shallowly embedded in Lean 4.

Native opaque handles (`gss_cred_id_t`, `gss_name_t`, `gss_OID_set`) are
modelled as natural numbers, with `0` playing the role of the null pointer.
The native GSSAPI calls (`gss_acquire_cred`, `gss_inquire_cred`,
`gss_release_cred`) are external collaborators with fixed contracts; they are
modelled as test doubles parametrized by an explicit behavior record, and their
resource effects are tracked in an explicit release ledger (`RelState`) that is
threaded through every operation, so that "released exactly once" and "leaked"
are decidable statements about concrete runs.
-/

namespace Gssapi

/-- A native opaque handle; `0` models the null pointer
(`GSS_C_NO_CREDENTIAL` / `GSS_C_NO_NAME` / `GSS_C_NO_OID_SET`). -/
abbrev Handle := Nat

/-- Which kind of native handle a release-ledger entry refers to. -/
inductive HKind
  | cred
  | name
  | oidset
deriving DecidableEq, Repr

/-- The release ledger: a log of every invocation of a native release
primitive (`gss_release_cred`, `gss_release_name`, `gss_release_oid_set`),
recording the kind and the handle value passed. -/
structure RelState where
  releases : List (HKind × Handle)
deriving DecidableEq, Repr

/-- The empty ledger: no native release has happened yet. -/
def RelState.empty : RelState := ⟨[]⟩

/-- How many times handle `h` of kind `k` has been passed to its native
release primitive. -/
def RelState.count (st : RelState) (k : HKind) (h : Handle) : Nat :=
  st.releases.count (k, h)

/- External numeric constants from the `libgssapi_sys` crate (fixed contract,
RFC 2744 values): the three usage codes, the complete status, and the
indefinite-lifetime sentinel `_GSS_C_INDEFINITE = 0xffffffff`. -/

def GSS_C_ACCEPT : Nat := 2
def GSS_C_INITIATE : Nat := 1
def GSS_C_BOTH : Nat := 0
def GSS_S_COMPLETE : Nat := 0
def GSS_C_INDEFINITE : Nat := 4294967295

/-- Modelled from the spec: the routine-error value `GSS_S_FAILURE`
(routine error 13 at bit offset 16) used by `MajorFlags::GSS_S_FAILURE`
in `error.rs`, which is not under `src/`; the spec calls it
"a generic failure status". -/
def GSS_S_FAILURE : Nat := 13 * 2 ^ 16

/-- Modelled from the spec: the "is this an error" predicate `gss_error`
from `error.rs` (not under `src/`): §6 says a non-complete major status "is
examined through an is-this-an-error predicate before being treated as
fatal versus advisory". Per the RFC 2744 status-word layout the calling-error
and routine-error fields occupy the top two bytes, so the predicate masks the
major status with `0xFFFF0000`; supplementary-information bits (low 16 bits)
are advisory and do not count as errors. -/
def gss_error (x : Nat) : Nat := x &&& 0xFFFF0000

/-- The structured error of the layer: raw major-status bit flags
(`MajorFlags::from_bits_unchecked` preserves the raw word, so we keep the
raw `Nat`) plus the raw minor-status code. -/
structure Error where
  major : Nat
  minor : Nat
deriving DecidableEq, Repr

/-- `CredUsage` from `credential.rs`: the closed usage enumeration. -/
inductive CredUsage
  | Accept
  | Initiate
  | Both
deriving DecidableEq, Repr

/-- `CredUsage::from_c`: the raw `i32` usage code is cast `as u32`
(two-complement reinterpretation, i.e. reduction mod `2^32`) and matched
against the three recognized codes; anything else is
`Error { major: GSS_S_FAILURE, minor: 0 }`. -/
def CredUsage.from_c (c : Int) : Except Error CredUsage :=
  let cu : Nat := (c % 2 ^ 32).toNat
  if cu = GSS_C_BOTH then .ok .Both
  else if cu = GSS_C_INITIATE then .ok .Initiate
  else if cu = GSS_C_ACCEPT then .ok .Accept
  else .error { major := GSS_S_FAILURE, minor := 0 }

/-- `CredUsage::to_c`: total encoding to the native code. -/
def CredUsage.to_c : CredUsage → Nat
  | .Both => GSS_C_BOTH
  | .Initiate => GSS_C_INITIATE
  | .Accept => GSS_C_ACCEPT

/-- `Cred`: wraps one native credential handle. -/
structure Cred where
  handle : Handle
deriving DecidableEq, Repr

/-- Modelled from the spec (§4.2, fixed native contract of
`gss_release_cred`): the native release primitive records the release in the
ledger, writes the null handle back through the in-out handle pointer, and
returns its own major status (supplied here by the test double as
`retMajor`). -/
def gss_release_cred (retMajor : Nat) (st : RelState) (h : Handle) :
    RelState × Handle × Nat :=
  (⟨(HKind.cred, h) :: st.releases⟩, 0, retMajor)

/-- `impl Drop for Cred`: if the handle is non-null, call
`gss_release_cred` on it (which nulls the handle through the pointer) and
ignore the returned major status (`let _major = ...`); if the handle is
null, do nothing. -/
def Cred.drop (retMajor : Nat) (st : RelState) (c : Cred) : RelState × Cred :=
  if c.handle ≠ 0 then
    let (st, h, _major) := gss_release_cred retMajor st c.handle
    (st, ⟨h⟩)
  else
    (st, c)

/-- `Cred::from_c`: adopt a handle of unverified provenance. -/
def Cred.from_c (h : Handle) : Cred := ⟨h⟩

/-- Modelled from the spec (§4.2, `name.rs` is not under `src/`): `Name`
follows the opaque-handle pattern, so `Name::from_c(n)` followed by the
drop of the temporary releases the name handle exactly once when it is non-null
and is a no-op on the null handle. -/
def nameDropRelease (st : RelState) (h : Handle) : RelState :=
  if h ≠ 0 then ⟨(HKind.name, h) :: st.releases⟩ else st

/-- Modelled from the spec (§4.2, `oid.rs` is not under `src/`): `OidSet`
follows the opaque-handle pattern, so `OidSet::from_c(s)` followed by the
drop of the temporary releases the OID-set handle exactly once when it is
non-null and is a no-op on the null handle. -/
def oidsetDropRelease (st : RelState) (h : Handle) : RelState :=
  if h ≠ 0 then ⟨(HKind.oidset, h) :: st.releases⟩ else st

/-- `CredInfoC` from `credential.rs`: the four optional request/response
slots passed to the inquire call. `none` means the slot is not requested;
`some v` means a slot initialized with `v` is requested. -/
structure CredInfoC where
  name : Option Handle
  lifetime : Option Nat
  usage : Option Int
  mechanisms : Option Handle
deriving DecidableEq, Repr

/-- `CredInfoC::empty`. -/
def CredInfoC.empty : CredInfoC :=
  { name := none, lifetime := none, usage := none, mechanisms := none }

/-- The four output-pointer arguments `info_c` passes to
`gss_inquire_cred`, mirroring its four `match` expressions: a `none` slot is
passed as the null pointer (the absent marker), a `some` slot as a pointer
to its storage. `none` here literally models the null pointer argument. -/
def CredInfoC.inquireArgs (ifo : CredInfoC) : CredInfoC :=
  { name := match ifo.name with
      | none => none
      | some n => some n,
    lifetime := match ifo.lifetime with
      | none => none
      | some l => some l,
    usage := match ifo.usage with
      | none => none
      | some u => some u,
    mechanisms := match ifo.mechanisms with
      | none => none
      | some s => some s }

/-- Modelled from the spec (§4.4, fixed native contract): the behavior of
one `gss_inquire_cred` call — the major/minor status it reports, the values
it would write into the four slots, and how far the in-order fill got before
the call stopped (`filledUpTo` = number of leading slots, in program order
name, lifetime, usage, mechanisms, that were populated; a requested slot
beyond that point keeps its caller-initialized value). -/
structure InquireBehavior where
  major : Nat
  minor : Nat
  nameOut : Handle
  lifetimeOut : Nat
  usageOut : Int
  mechanismsOut : Handle
  filledUpTo : Nat
deriving DecidableEq, Repr

/-- Modelled from the spec (§4.4): the native `gss_inquire_cred` writes
through each non-null output pointer that the in-order fill reached;
slots passed as null are never written. -/
def runInquire (b : InquireBehavior) (args : CredInfoC) : CredInfoC :=
  { name := match args.name with
      | none => none
      | some n => some (if 0 < b.filledUpTo then b.nameOut else n),
    lifetime := match args.lifetime with
      | none => none
      | some l => some (if 1 < b.filledUpTo then b.lifetimeOut else l),
    usage := match args.usage with
      | none => none
      | some u => some (if 2 < b.filledUpTo then b.usageOut else u),
    mechanisms := match args.mechanisms with
      | none => none
      | some s => some (if 3 < b.filledUpTo then b.mechanismsOut else s) }

/-- `Cred::info_c`: run the native inquire call on the requested slots; if
the major status satisfies the error predicate, wrap and immediately drop
(hence release) whatever the name and mechanisms slots now hold
(`Name::from_c(n)` / `OidSet::from_c(s)` on the slot values, null-safe) and
return the structured error; otherwise return the filled slots. -/
def Cred.info_c (b : InquireBehavior) (st : RelState) (self : Cred)
    (ifo : CredInfoC) : RelState × Except Error CredInfoC :=
  let filled := runInquire b ifo.inquireArgs
  if 0 < gss_error b.major then
    let st := match filled.name with
      | some n => nameDropRelease st n
      | none => st
    let st := match filled.mechanisms with
      | some s => oidsetDropRelease st s
      | none => st
    (st, .error { major := b.major, minor := b.minor })
  else
    (st, .ok filled)

/-- `CredInfo`: the fully-owned aggregate produced by `info`. The `name`
and `mechanisms` fields hold the owned native handles; `lifetime` is the
whole-seconds duration. -/
structure CredInfo where
  name : Handle
  lifetime : Nat
  usage : CredUsage
  mechanisms : Handle
deriving DecidableEq, Repr

/-- The request `Cred::info` builds: all four slots requested
(name and mechanisms initialized to the null handle, lifetime and usage
to `0`). -/
def infoRequest : CredInfoC :=
  { name := some 0, lifetime := some 0, usage := some 0, mechanisms := some 0 }

/-- The request `Cred::name` builds: only the name slot. -/
def nameRequest : CredInfoC :=
  { CredInfoC.empty with name := some 0 }

/-- The request `Cred::lifetime` builds: only the lifetime slot. -/
def lifetimeRequest : CredInfoC :=
  { CredInfoC.empty with lifetime := some 0 }

/-- The request `Cred::usage` builds: only the usage slot. -/
def usageRequest : CredInfoC :=
  { CredInfoC.empty with usage := some 0 }

/-- The request `Cred::mechanisms` builds: only the mechanisms slot. -/
def mechanismsRequest : CredInfoC :=
  { CredInfoC.empty with mechanisms := some 0 }

/-- `Cred::info`: inquire with all four slots, then build the `CredInfo`
struct literal. Rust evaluates the field expressions in program order:
`Name::from_c(c.name.unwrap())` first, then the lifetime, then
`CredUsage::from_c(c.usage.unwrap())?`. When that decode fails, the `?`
returns early: the already-built `Name` temporary is dropped (releasing the
name handle), while the `OidSet::from_c(c.mechanisms.unwrap())` field
expression has not yet been evaluated, so the raw mechanisms handle is
never wrapped and no release of it occurs. -/
def Cred.info (b : InquireBehavior) (st : RelState) (self : Cred) :
    RelState × Except Error CredInfo :=
  match Cred.info_c b st self infoRequest with
  | (st, .error e) => (st, .error e)
  | (st, .ok c) =>
    let nameVal := c.name.getD 0
    let lifetimeVal := c.lifetime.getD 0
    match CredUsage.from_c (c.usage.getD 0) with
    | .error e =>
      let st := nameDropRelease st nameVal
      (st, .error e)
    | .ok u =>
      (st, .ok { name := nameVal, lifetime := lifetimeVal, usage := u,
                 mechanisms := c.mechanisms.getD 0 })

/-- `Cred::name`: inquire with only the name slot; on success the caller
receives ownership of the name handle. -/
def Cred.name (b : InquireBehavior) (st : RelState) (self : Cred) :
    RelState × Except Error Handle :=
  match Cred.info_c b st self nameRequest with
  | (st, .error e) => (st, .error e)
  | (st, .ok c) => (st, .ok (c.name.getD 0))

/-- `Cred::lifetime`: inquire with only the lifetime slot. -/
def Cred.lifetime (b : InquireBehavior) (st : RelState) (self : Cred) :
    RelState × Except Error Nat :=
  match Cred.info_c b st self lifetimeRequest with
  | (st, .error e) => (st, .error e)
  | (st, .ok c) => (st, .ok (c.lifetime.getD 0))

/-- `Cred::usage`: inquire with only the usage slot, then decode the raw
code (which can itself fail). -/
def Cred.usage (b : InquireBehavior) (st : RelState) (self : Cred) :
    RelState × Except Error CredUsage :=
  match Cred.info_c b st self usageRequest with
  | (st, .error e) => (st, .error e)
  | (st, .ok c) =>
    match CredUsage.from_c (c.usage.getD 0) with
    | .error e => (st, .error e)
    | .ok u => (st, .ok u)

/-- `Cred::mechanisms`: inquire with only the mechanisms slot; on success
the caller receives ownership of the OID-set handle. -/
def Cred.mechanisms (b : InquireBehavior) (st : RelState) (self : Cred) :
    RelState × Except Error Handle :=
  match Cred.info_c b st self mechanismsRequest with
  | (st, .error e) => (st, .error e)
  | (st, .ok c) => (st, .ok (c.mechanisms.getD 0))

/-- The `time_req` encoding at the top of `Cred::acquire`:
`time_req.map(|d| d.as_secs() as u32).unwrap_or(_GSS_C_INDEFINITE)`.
A `Duration` is modelled by its whole-seconds value; the `as u32` cast
reduces it mod `2^32`. -/
def encodeTimeReq (time_req : Option Nat) : Nat :=
  match time_req with
  | some d => d % 2 ^ 32
  | none => GSS_C_INDEFINITE

/-- The arguments `Cred::acquire` passes to `gss_acquire_cred`: an absent
name is the null pointer, an absent mechanism set is `NO_OID_SET` (the null
OID set), the lifetime is `encodeTimeReq`, the usage is `CredUsage::to_c`. -/
structure AcquireArgs where
  name : Handle
  time_req : Nat
  desired_mechs : Handle
  usage : Nat
deriving DecidableEq, Repr

/-- How `Cred::acquire` encodes its parameters into the arguments of the
native call. -/
def Cred.acquireArgs (name : Option Handle) (time_req : Option Nat)
    (usage : CredUsage) (desired_mechs : Option Handle) : AcquireArgs :=
  { name := match name with
      | none => 0
      | some n => n,
    time_req := encodeTimeReq time_req,
    desired_mechs := match desired_mechs with
      | none => 0
      | some s => s,
    usage := usage.to_c }

/-- Modelled from the spec (§4.3, fixed native contract): the behavior of
one `gss_acquire_cred` call — the major/minor status it reports and the
credential handle it writes on the success path (the native contract
guarantees the credential output is only populated on success). -/
structure AcquireBehavior where
  major : Nat
  minor : Nat
  credOut : Handle
deriving DecidableEq, Repr

/-- `Cred::acquire`: encode the arguments, run the native call; if the
major status equals `GSS_S_COMPLETE` wrap the returned handle in a `Cred`,
otherwise return the structured error carrying the raw major word
(`MajorFlags::from_bits_unchecked(major)` preserves every bit) and the raw
minor code. -/
def Cred.acquire (b : AcquireBehavior) (name : Option Handle)
    (time_req : Option Nat) (usage : CredUsage)
    (desired_mechs : Option Handle) : Except Error Cred :=
  let _args := Cred.acquireArgs name time_req usage desired_mechs
  if b.major = GSS_S_COMPLETE then
    .ok ⟨b.credOut⟩
  else
    .error { major := b.major, minor := b.minor }

/-! ## Helper lemmas about the release ledger -/

/-- Releasing an OID set never changes the count of name releases. -/
theorem count_name_oidsetDropRelease (st : RelState) (s h : Handle) :
    (oidsetDropRelease st s).count HKind.name h = st.count HKind.name h := by
  unfold oidsetDropRelease RelState.count
  by_cases hs : s ≠ 0 <;> simp [hs, List.count_cons]

/-- Releasing a name never changes the count of OID-set releases. -/
theorem count_oidset_nameDropRelease (st : RelState) (n s : Handle) :
    (nameDropRelease st n).count HKind.oidset s = st.count HKind.oidset s := by
  unfold nameDropRelease RelState.count
  by_cases hn : n ≠ 0 <;> simp [hn, List.count_cons]

/-- Dropping a freshly wrapped non-null name handle releases it exactly
once. -/
theorem count_name_nameDropRelease (st : RelState) (h : Handle) (hne : h ≠ 0) :
    (nameDropRelease st h).count HKind.name h = st.count HKind.name h + 1 := by
  unfold nameDropRelease RelState.count
  simp [hne, List.count_cons]

/-- Dropping a freshly wrapped non-null OID-set handle releases it exactly
once. -/
theorem count_oidset_oidsetDropRelease (st : RelState) (s : Handle) (hne : s ≠ 0) :
    (oidsetDropRelease st s).count HKind.oidset s = st.count HKind.oidset s + 1 := by
  unfold oidsetDropRelease RelState.count
  simp [hne, List.count_cons]

/-! ## Claim theorems -/

/-- Claim C4: for all three `UsageMode` variants `v`, decoding the encoded
numeric code returns the same variant: `from_c (to_c v) = ok v`. -/
theorem credUsage_roundtrip (v : CredUsage) :
    CredUsage.from_c ((CredUsage.to_c v : Nat) : Int) = .ok v := by
  cases v <;> rfl

/-- Claim C5: `CredUsage::from_c` on any `i32` outside the three recognized
usage codes (0 for Both, 1 for Initiate, 2 for Accept) returns the
generic-failure error `Error { major: GSS_S_FAILURE, minor: 0 }`, never a
default variant. -/
theorem credUsage_decode_unrecognized (c : Int)
    (hlo : -(2 ^ 31) ≤ c) (hhi : c < 2 ^ 31)
    (h0 : c ≠ 0) (h1 : c ≠ 1) (h2 : c ≠ 2) :
    CredUsage.from_c c = .error { major := GSS_S_FAILURE, minor := 0 } := by
  have hb : ((c % 2 ^ 32).toNat : Nat) ≠ GSS_C_BOTH := by
    unfold GSS_C_BOTH; omega
  have hi : ((c % 2 ^ 32).toNat : Nat) ≠ GSS_C_INITIATE := by
    unfold GSS_C_INITIATE; omega
  have ha : ((c % 2 ^ 32).toNat : Nat) ≠ GSS_C_ACCEPT := by
    unfold GSS_C_ACCEPT; omega
  unfold CredUsage.from_c
  simp only [if_neg hb, if_neg hi, if_neg ha]

/-- Witness for C5 at the concrete unrecognized code `3`. -/
theorem credUsage_decode_unrecognized_witness :
    CredUsage.from_c 3 = .error { major := GSS_S_FAILURE, minor := 0 } :=
  credUsage_decode_unrecognized 3 (by decide) (by decide) (by decide)
    (by decide) (by decide)

/-- Claim C6: in `acquire`, an absent requested lifetime encodes to exactly
the indefinite-lifetime sentinel `_GSS_C_INDEFINITE` (which is neither zero
nor any other default), and a present duration of 3600 seconds encodes to
exactly 3600, not the sentinel. -/
theorem acquire_lifetime_encoding :
    (∀ n u m, (Cred.acquireArgs n none u m).time_req = GSS_C_INDEFINITE) ∧
    (∀ n u m, (Cred.acquireArgs n (some 3600) u m).time_req = 3600) ∧
    GSS_C_INDEFINITE ≠ 0 ∧ (3600 : Nat) ≠ GSS_C_INDEFINITE := by
  refine ⟨fun n u m => rfl, fun n u m => rfl, by decide, by decide⟩

/-- Counterexample to claim C3 as stated: a requested lifetime of `2^32`
whole seconds is passed to the native call as `0` — a wrapped-around value,
neither the clamp `2^32 - 1` nor a rejection — so `acquire` does silently
truncate. -/
theorem acquire_truncation_counterexample :
    encodeTimeReq (some (2 ^ 32)) = 0 ∧
    encodeTimeReq (some (2 ^ 32)) ≠ 2 ^ 32 - 1 ∧
    (∀ n u m, (Cred.acquireArgs n (some (2 ^ 32)) u m).time_req = 0) := by
  exact ⟨by decide, by decide, fun n u m => rfl⟩

/-- Amended claim C3: `acquire` silently truncates the requested
whole-seconds value modulo `2^32` before passing it to the native
acquisition primitive (no clamp, no rejection). -/
theorem acquire_truncates_mod_2_32 (n : Option Handle) (d : Nat)
    (u : CredUsage) (m : Option Handle) :
    (Cred.acquireArgs n (some d) u m).time_req = d % 2 ^ 32 := rfl

/-- Claim C8: when the native acquisition call fails (major status not
`GSS_S_COMPLETE`), `acquire` returns a structured error carrying exactly
the raw major-status word and the raw minor-status code, and nothing else
(in particular no `Cred`) is produced on that path. -/
theorem acquire_failure_preserves_status
    (b : AcquireBehavior) (n : Option Handle) (t : Option Nat)
    (u : CredUsage) (m : Option Handle) (h : b.major ≠ GSS_S_COMPLETE) :
    Cred.acquire b n t u m = .error { major := b.major, minor := b.minor } := by
  simp [Cred.acquire, h]

/-- Witness for C8: a failing acquisition with major `GSS_S_FAILURE` and
minor `9` surfaces exactly those two codes. -/
theorem acquire_failure_preserves_status_witness :
    Cred.acquire ⟨GSS_S_FAILURE, 9, 11⟩ none none CredUsage.Initiate none
      = .error { major := GSS_S_FAILURE, minor := 9 } :=
  acquire_failure_preserves_status ⟨GSS_S_FAILURE, 9, 11⟩ none none
    CredUsage.Initiate none (by decide)

/-- Claim C7: dropping a `Cred` invokes the native release exactly once
when the handle is non-null and never when it is null (including a
credential adopted from a null handle via `from_c 0`, or one whose handle
was already nulled by a previous release); the major status returned by the
native release is ignored (the drop result does not depend on it); and two
successive drops of the same logical value release the underlying handle at
most once in total. -/
theorem cred_drop_release_discipline :
    (∀ rm st (c : Cred), c.handle ≠ 0 →
        (Cred.drop rm st c).1.count HKind.cred c.handle
            = st.count HKind.cred c.handle + 1 ∧
        (Cred.drop rm st c).2.handle = 0) ∧
    (∀ rm st (c : Cred), c.handle = 0 → Cred.drop rm st c = (st, c)) ∧
    (∀ rm1 rm2 st (c : Cred), Cred.drop rm1 st c = Cred.drop rm2 st c) ∧
    (∀ rm rm' st (c : Cred),
        (Cred.drop rm' (Cred.drop rm st c).1 (Cred.drop rm st c).2).1.count
            HKind.cred c.handle
          ≤ st.count HKind.cred c.handle + 1) := by
  refine ⟨?_, ?_, ?_, ?_⟩
  · intro rm st c h
    simp [Cred.drop, gss_release_cred, RelState.count, h, List.count_cons]
  · intro rm st c h
    simp [Cred.drop, h]
  · intro rm1 rm2 st c
    by_cases h : c.handle = 0 <;> simp [Cred.drop, gss_release_cred, h]
  · intro rm rm' st c
    by_cases h : c.handle = 0
    · simp [Cred.drop, h]
    · simp [Cred.drop, gss_release_cred, RelState.count, h, List.count_cons]

/-- Witness for C7: dropping the credential with handle `7` releases it
exactly once; dropping the null credential releases nothing; a second drop
after a first one leaves the total release count at one. -/
theorem cred_drop_release_discipline_witness :
    (Cred.drop 5 RelState.empty ⟨7⟩).1.count HKind.cred 7
        = RelState.empty.count HKind.cred 7 + 1 ∧
    Cred.drop 5 RelState.empty ⟨0⟩ = (RelState.empty, ⟨0⟩) ∧
    (Cred.drop 5 (Cred.drop 5 RelState.empty ⟨7⟩).1
        (Cred.drop 5 RelState.empty ⟨7⟩).2).1.count HKind.cred 7
      ≤ RelState.empty.count HKind.cred 7 + 1 :=
  ⟨(cred_drop_release_discipline.1 5 RelState.empty ⟨7⟩ (by decide)).1,
   cred_drop_release_discipline.2.1 5 RelState.empty ⟨0⟩ rfl,
   cred_drop_release_discipline.2.2.2 5 5 RelState.empty ⟨7⟩⟩

/-- Claim C9: `info` requests all four slots; `name`, `lifetime`, `usage`
and `mechanisms` request exactly their own slot; and in the arguments
actually passed to `gss_inquire_cred`, every unrequested slot is the
null-pointer marker (`none`). -/
theorem projection_requested_slots :
    infoRequest.inquireArgs
        = { name := some 0, lifetime := some 0, usage := some 0,
            mechanisms := some 0 } ∧
    nameRequest.inquireArgs
        = { name := some 0, lifetime := none, usage := none,
            mechanisms := none } ∧
    lifetimeRequest.inquireArgs
        = { name := none, lifetime := some 0, usage := none,
            mechanisms := none } ∧
    usageRequest.inquireArgs
        = { name := none, lifetime := none, usage := some 0,
            mechanisms := none } ∧
    mechanismsRequest.inquireArgs
        = { name := none, lifetime := none, usage := none,
            mechanisms := some 0 } := by
  decide

/-- On a failing inquire call, `info_c` returns the structured error built
from the raw major and minor status (shared helper). -/
theorem info_c_snd_fail (b : InquireBehavior) (st : RelState) (c : Cred)
    (ifo : CredInfoC) (herr : 0 < gss_error b.major) :
    (Cred.info_c b st c ifo).2
      = .error { major := b.major, minor := b.minor } := by
  obtain ⟨nm, lt, us, mech⟩ := ifo
  cases nm <;> cases mech <;>
    simp [Cred.info_c, runInquire, CredInfoC.inquireArgs, herr]

/-- On a failing inquire call with the name slot requested and reached by
the fill, `info_c` releases the produced non-null name handle exactly once
(shared helper). -/
theorem info_c_fail_releases_name (b : InquireBehavior) (st : RelState)
    (c : Cred) (ifo : CredInfoC) (herr : 0 < gss_error b.major) (n0 : Handle)
    (hn : ifo.name = some n0) (hf : 0 < b.filledUpTo) (hne : b.nameOut ≠ 0) :
    (Cred.info_c b st c ifo).1.count HKind.name b.nameOut
      = st.count HKind.name b.nameOut + 1 := by
  obtain ⟨nm, lt, us, mech⟩ := ifo
  simp only at hn
  subst hn
  cases mech <;>
    simp [Cred.info_c, runInquire, CredInfoC.inquireArgs, herr, hf,
          count_name_oidsetDropRelease, count_name_nameDropRelease, hne]

/-- On a failing inquire call with the mechanisms slot requested and
reached by the fill, `info_c` releases the produced non-null OID-set handle
exactly once (shared helper). -/
theorem info_c_fail_releases_mechanisms (b : InquireBehavior) (st : RelState)
    (c : Cred) (ifo : CredInfoC) (herr : 0 < gss_error b.major) (s0 : Handle)
    (hs : ifo.mechanisms = some s0) (hf : 3 < b.filledUpTo)
    (hne : b.mechanismsOut ≠ 0) :
    (Cred.info_c b st c ifo).1.count HKind.oidset b.mechanismsOut
      = st.count HKind.oidset b.mechanismsOut + 1 := by
  obtain ⟨nm, lt, us, mech⟩ := ifo
  simp only at hs
  subst hs
  cases nm <;>
    simp [Cred.info_c, runInquire, CredInfoC.inquireArgs, herr, hf,
          count_oidset_nameDropRelease, count_oidset_oidsetDropRelease, hne]

/-- On a failing inquire call, `info` returns the ledger produced by the
cleanup in `info_c` together with the structured error (shared helper). -/
theorem info_fail_propagates (b : InquireBehavior) (st : RelState) (c : Cred)
    (herr : 0 < gss_error b.major) :
    Cred.info b st c
      = ((Cred.info_c b st c infoRequest).1,
         .error { major := b.major, minor := b.minor }) := by
  have hs := info_c_snd_fail b st c infoRequest herr
  rcases hic : Cred.info_c b st c infoRequest with ⟨st', r⟩
  rw [hic] at hs
  simp only at hs
  subst hs
  simp [Cred.info, hic]

/-- On a failing inquire call, `name` returns the cleanup ledger and the
structured error (shared helper). -/
theorem name_fail_propagates (b : InquireBehavior) (st : RelState) (c : Cred)
    (herr : 0 < gss_error b.major) :
    Cred.name b st c
      = ((Cred.info_c b st c nameRequest).1,
         .error { major := b.major, minor := b.minor }) := by
  have hs := info_c_snd_fail b st c nameRequest herr
  rcases hic : Cred.info_c b st c nameRequest with ⟨st', r⟩
  rw [hic] at hs
  simp only at hs
  subst hs
  simp [Cred.name, hic]

/-- On a failing inquire call, `lifetime` returns the cleanup ledger and
the structured error (shared helper). -/
theorem lifetime_fail_propagates (b : InquireBehavior) (st : RelState)
    (c : Cred) (herr : 0 < gss_error b.major) :
    Cred.lifetime b st c
      = ((Cred.info_c b st c lifetimeRequest).1,
         .error { major := b.major, minor := b.minor }) := by
  have hs := info_c_snd_fail b st c lifetimeRequest herr
  rcases hic : Cred.info_c b st c lifetimeRequest with ⟨st', r⟩
  rw [hic] at hs
  simp only at hs
  subst hs
  simp [Cred.lifetime, hic]

/-- On a failing inquire call, `usage` returns the cleanup ledger and the
structured error (shared helper). -/
theorem usage_fail_propagates (b : InquireBehavior) (st : RelState)
    (c : Cred) (herr : 0 < gss_error b.major) :
    Cred.usage b st c
      = ((Cred.info_c b st c usageRequest).1,
         .error { major := b.major, minor := b.minor }) := by
  have hs := info_c_snd_fail b st c usageRequest herr
  rcases hic : Cred.info_c b st c usageRequest with ⟨st', r⟩
  rw [hic] at hs
  simp only at hs
  subst hs
  simp [Cred.usage, hic]

/-- On a failing inquire call, `mechanisms` returns the cleanup ledger and
the structured error (shared helper). -/
theorem mechanisms_fail_propagates (b : InquireBehavior) (st : RelState)
    (c : Cred) (herr : 0 < gss_error b.major) :
    Cred.mechanisms b st c
      = ((Cred.info_c b st c mechanismsRequest).1,
         .error { major := b.major, minor := b.minor }) := by
  have hs := info_c_snd_fail b st c mechanismsRequest herr
  rcases hic : Cred.info_c b st c mechanismsRequest with ⟨st', r⟩
  rw [hic] at hs
  simp only at hs
  subst hs
  simp [Cred.mechanisms, hic]

/-- Claim C1: whenever the native inquire call reports failure
(`gss_error` on the major status is positive), the layer releases every
requested owned-handle slot before returning: the error result carries only
the raw status pair (no handle escapes), a name handle produced by the
partial fill is released exactly once, a mechanisms handle produced by the
partial fill is released exactly once, and each of the five public
operations (`info`, `name`, `lifetime`, `usage`, `mechanisms`) returns
exactly the post-cleanup ledger together with that error. -/
theorem inquire_failure_releases_owned_slots
    (b : InquireBehavior) (st : RelState) (c : Cred) (ifo : CredInfoC)
    (herr : 0 < gss_error b.major) :
    (Cred.info_c b st c ifo).2
        = .error { major := b.major, minor := b.minor } ∧
    (∀ n0, ifo.name = some n0 → 0 < b.filledUpTo → b.nameOut ≠ 0 →
        (Cred.info_c b st c ifo).1.count HKind.name b.nameOut
          = st.count HKind.name b.nameOut + 1) ∧
    (∀ s0, ifo.mechanisms = some s0 → 3 < b.filledUpTo →
        b.mechanismsOut ≠ 0 →
        (Cred.info_c b st c ifo).1.count HKind.oidset b.mechanismsOut
          = st.count HKind.oidset b.mechanismsOut + 1) ∧
    Cred.info b st c
        = ((Cred.info_c b st c infoRequest).1,
           .error { major := b.major, minor := b.minor }) ∧
    Cred.name b st c
        = ((Cred.info_c b st c nameRequest).1,
           .error { major := b.major, minor := b.minor }) ∧
    Cred.lifetime b st c
        = ((Cred.info_c b st c lifetimeRequest).1,
           .error { major := b.major, minor := b.minor }) ∧
    Cred.usage b st c
        = ((Cred.info_c b st c usageRequest).1,
           .error { major := b.major, minor := b.minor }) ∧
    Cred.mechanisms b st c
        = ((Cred.info_c b st c mechanismsRequest).1,
           .error { major := b.major, minor := b.minor }) :=
  ⟨info_c_snd_fail b st c ifo herr,
   fun n0 hn hf hne => info_c_fail_releases_name b st c ifo herr n0 hn hf hne,
   fun s0 hs hf hne =>
     info_c_fail_releases_mechanisms b st c ifo herr s0 hs hf hne,
   info_fail_propagates b st c herr,
   name_fail_propagates b st c herr,
   lifetime_fail_propagates b st c herr,
   usage_fail_propagates b st c herr,
   mechanisms_fail_propagates b st c herr⟩

/-- Witness for C1, the scenario from the spec: the native call fills the
name slot with handle `5`, then fails (major `GSS_S_FAILURE`, minor `42`)
before filling mechanisms; `info_c` on the all-slots request returns the
error and the name handle is released exactly once. -/
theorem inquire_failure_releases_owned_slots_witness :
    (Cred.info_c ⟨GSS_S_FAILURE, 42, 5, 0, 0, 7, 1⟩ RelState.empty ⟨4⟩
        infoRequest).2
      = .error { major := GSS_S_FAILURE, minor := 42 } ∧
    (Cred.info_c ⟨GSS_S_FAILURE, 42, 5, 0, 0, 7, 1⟩ RelState.empty ⟨4⟩
        infoRequest).1.count HKind.name 5
      = RelState.empty.count HKind.name 5 + 1 :=
  ⟨(inquire_failure_releases_owned_slots ⟨GSS_S_FAILURE, 42, 5, 0, 0, 7, 1⟩
      RelState.empty ⟨4⟩ infoRequest (by decide)).1,
   (inquire_failure_releases_owned_slots ⟨GSS_S_FAILURE, 42, 5, 0, 0, 7, 1⟩
      RelState.empty ⟨4⟩ infoRequest (by decide)).2.1 0 rfl (by decide)
      (by decide)⟩

/-- Claim C2 fails on the code: run `info` against a native inquire call
that succeeds (major `0`) and fills name handle `5`, lifetime `60`, raw
usage code `99` (unrecognized) and mechanisms handle `7`. The usage decode
fails and `info` returns the decode error; the name handle is released
(the already-evaluated `Name` temporary of the struct literal is dropped),
but the mechanisms OID-set handle `7` — collected by the successful native
call — is never wrapped and never released: its release count stays `0`,
a leaked handle, contradicting the claim that every owned slot collected
so far is released. -/
theorem info_decode_failure_leaks_mechanisms :
    (Cred.info ⟨0, 0, 5, 60, 99, 7, 4⟩ RelState.empty ⟨4⟩).2
        = .error { major := GSS_S_FAILURE, minor := 0 } ∧
    (Cred.info ⟨0, 0, 5, 60, 99, 7, 4⟩ RelState.empty ⟨4⟩).1.count
        HKind.name 5 = 1 ∧
    (Cred.info ⟨0, 0, 5, 60, 99, 7, 4⟩ RelState.empty ⟨4⟩).1.count
        HKind.oidset 7 = 0 :=
  ⟨rfl, by decide, by decide⟩

/-- Claim C10: `acquire` treats every major status other than
`GSS_S_COMPLETE` as a failure, while the inquire-based operations succeed
whenever the `gss_error` predicate is zero on the major status; the
advisory status word `1` (a supplementary-information bit) separates the
two: it is not `GSS_S_COMPLETE`, yet `gss_error 1 = 0`. -/
theorem acquire_vs_inquire_success_criterion :
    (∀ (b : AcquireBehavior) n t u m, b.major ≠ GSS_S_COMPLETE →
        Cred.acquire b n t u m
          = .error { major := b.major, minor := b.minor }) ∧
    (∀ (b : InquireBehavior) st c ifo, gss_error b.major = 0 →
        Cred.info_c b st c ifo = (st, .ok (runInquire b ifo.inquireArgs))) ∧
    gss_error 1 = 0 ∧ (1 : Nat) ≠ GSS_S_COMPLETE := by
  refine ⟨?_, ?_, by decide, by decide⟩
  · intro b n t u m h
    simp [Cred.acquire, h]
  · intro b st c ifo h
    simp [Cred.info_c, h]

/-- Witness for C10 at the advisory major status `1`: the same status word
makes `acquire` fail and `info_c` succeed. -/
theorem acquire_vs_inquire_success_criterion_witness :
    Cred.acquire ⟨1, 0, 0⟩ none none CredUsage.Initiate none
        = .error { major := 1, minor := 0 } ∧
    Cred.info_c ⟨1, 0, 0, 0, 0, 0, 0⟩ RelState.empty ⟨4⟩ usageRequest
        = (RelState.empty,
           .ok (runInquire ⟨1, 0, 0, 0, 0, 0, 0⟩ usageRequest.inquireArgs)) :=
  ⟨acquire_vs_inquire_success_criterion.1 ⟨1, 0, 0⟩ none none
      CredUsage.Initiate none (by decide),
   acquire_vs_inquire_success_criterion.2.1 ⟨1, 0, 0, 0, 0, 0, 0⟩
      RelState.empty ⟨4⟩ usageRequest (by decide)⟩

end Gssapi
